import Mathlib

/-
A verification development for the poc-classic-attacks daemon and its C2
server.  The Python modules (modules/patcher.py, modules/token_stealer.py,
modules/communication.py, quantum_daemon.py, quantum_c2.py) are shallowly
embedded: file-system effects become explicit state values, raised
exceptions become Option/error results, and each embedded definition
mirrors one Python function.
-/

namespace PoC

/-! ### Patcher: PythonPackagePatcher._patch_qiskit

A qiskit location is described by the two files the function touches:
the active file execute_function.py and the sidecar backup
execute_function.py.org.  Each is either absent (none) or present with
some byte content. -/

structure QiskitLoc where
  original : Option String
  backup : Option String
deriving DecidableEq

/-- Embeds PythonPackagePatcher._patch_qiskit (patcher.py lines 200-243).
The payload argument is the content of the attacker file copied in by
shutil.copy.  Branches, in source order: if the original file is absent,
return unchanged; if a backup exists, restore (unlink the active file and
rename the backup back) exactly when the restore flag is set, else return;
otherwise rename the original to the backup name and copy in the payload. -/
def patch_qiskit (payload : String) (qloc : QiskitLoc) (restore : Bool) : QiskitLoc :=
  match qloc.original with
  | none => qloc
  | some _ =>
    match qloc.backup with
    | some b =>
      if restore then { original := some b, backup := none } else qloc
    | none => { original := some payload, backup := qloc.original }

/-! ### JSON values and C2 messages

token_stealer.py parses credential files with json.load and resolves a
key path with reduce(operator.getitem, keys, data); quantum_c2.py indexes
parsed bodies the same way.  Json embeds parsed JSON values; getKey
embeds a single getitem with a string key (none embeds the raised
KeyError/TypeError). -/

inductive Json where
  | str (s : String)
  | num (n : Int)
  | bool (b : Bool)
  | null
  | arr (elems : List Json)
  | obj (fields : List (String × Json))

/-- One getitem step with a string key: a lookup in an object's fields
(none when the key is absent, i.e. a KeyError), and none on any non-object
(a TypeError).  Python dict keys are unique, so find? on the first match
is faithful. -/
def Json.getKey : Json → String → Option Json
  | .obj fields, k => (fields.find? (fun f => f.1 = k)).map (fun f => f.2)
  | _, _ => none

/-- reduce(operator.getitem, keys, data): fold getitem over the key path,
propagating a raised lookup error as none. -/
def Json.getPath (j : Json) (keys : List String) : Option Json :=
  keys.foldlM Json.getKey j

/-- A message handed to C2Communication.send: the route and the payload
dictionary that send JSON-serializes. -/
structure Msg where
  route : String
  payload : Json

/-- The argument of send in TokenStealer.run. -/
def tokenMsg (provider : String) (token : Json) : Msg :=
  { route := "/token", payload := .obj [("provider", .str provider), ("token", token)] }

/-! ### Token stealer: TokenStealer.run -/

/-- One entry of TokenStealer._data: provider name, relative config file
path, and the key path to the token. -/
structure ProviderCfg where
  name : String
  path : String
  keys : List String

/-- TokenStealer._data in insertion (= iteration) order. -/
def stealerData : List ProviderCfg :=
  [ { name := "IBM", path := ".qiskit/qiskit-ibm.json",
      keys := ["default-ibm-quantum", "token"] },
    { name := "QI", path := ".quantuminspire/qirc", keys := ["token"] } ]

/-- TokenStealer._env in insertion (= iteration) order. -/
def envData : List (String × List String) :=
  [("IonQ", ["IONQ_API_KEY", "IONQ_API_TOKEN", "QISKIT_IONQ_API_TOKEN"])]

/-- The (user, provider entry) pairs visited by the nested loops of the
directory phase of run(): for each user directory, each provider entry. -/
def stealSteps (users : List String) : List (String × ProviderCfg) :=
  (users.map (fun u => stealerData.map (fun c => (u, c)))).flatten

/-- The directory phase of TokenStealer.run (token_stealer.py lines
80-92) over the visited (user, provider) pairs.  The file system is
files user relpath, returning the parsed JSON content of the config file
or none when os.path.isfile fails.  Returns the messages sent in order,
and some error when key-path resolution raises: the exception
propagates, so no message is sent for the failing file and no later pair
is visited. -/
def runDirPhase : List (String × ProviderCfg) → (String → String → Option Json) →
    List Msg × Option String
  | [], _ => ([], none)
  | (u, c) :: rest, files =>
    match files u c.path with
    | none => runDirPhase rest files
    | some j =>
      match j.getPath c.keys with
      | none => ([], some "KeyError")
      | some tok =>
        let r := runDirPhase rest files
        (tokenMsg c.name tok :: r.1, r.2)

/-- The environment-variable phase of TokenStealer.run (token_stealer.py
lines 94-99): for each provider and each variable name in order, read the
variable (os.environ.get: none when unset) and send a /token message for
every truthy value (Python: None and the empty string are falsy).  The
loop has no early exit, so every non-empty variable produces a message. -/
def runEnvPhase (env : String → Option String) : List Msg :=
  (envData.map (fun kv =>
    kv.2.filterMap (fun v =>
      match env v with
      | none => none
      | some t => if t = "" then none else some (tokenMsg kv.1 (.str t))))).flatten

/-- TokenStealer.run: the directory phase, then (only when it did not
raise) the environment-variable phase. -/
def token_stealer_run (users : List String) (files : String → String → Option Json)
    (env : String → Option String) : List Msg × Option String :=
  let r := runDirPhase (stealSteps users) files
  match r.2 with
  | some e => (r.1, some e)
  | none => (r.1 ++ runEnvPhase env, none)

/-! ### Circuit watcher: PythonPackagePatcher._report_circuits

The backup directory is none when os.path.isdir fails, otherwise the
os.listdir sequence of (file name, read outcome) pairs.  A FileRead.fail
entry makes the open/read of that file raise. -/

inductive FileRead where
  | ok (content : String)
  | fail

/-- The argument of send in _report_circuits. -/
def circuitMsg (content : String) : Msg :=
  { route := "/circuit", payload := .obj [("circuit", .str content)] }

/-- The read-and-send loop of _report_circuits (patcher.py lines
126-131): per file, read it (a fail entry raises, propagating out of the
whole pass) and send its content, accumulating the path in to_remove.
Returns (messages sent, to_remove names, raised flag); on a raise the
accumulated to_remove list is discarded by the caller, so only the
messages already sent matter. -/
def readPhase : List (String × FileRead) → List Msg × List String × Bool
  | [] => ([], [], false)
  | (_, .fail) :: _ => ([], [], true)
  | (name, .ok c) :: rest =>
    let r := readPhase rest
    (circuitMsg c :: r.1, name :: r.2.1, r.2.2)

/-- PythonPackagePatcher._report_circuits (patcher.py lines 110-134):
no-op when the directory is absent; otherwise the read-and-send loop over
every listed file, and only after it finishes without raising, the delete
loop unlinks every path recorded in to_remove.  Returns (messages sent,
directory content afterwards, raised flag): a raise midway leaves every
file of the pass on disk. -/
def report_circuits (dir : Option (List (String × FileRead))) :
    List Msg × Option (List (String × FileRead)) × Bool :=
  match dir with
  | none => ([], none, false)
  | some files =>
    let r := readPhase files
    if r.2.2 then (r.1, some files, true)
    else (r.1, some (files.filter (fun f => f.1 ∉ r.2.1)), false)

/-! ### C2 receiver: quantum_c2.py -/

/-- A provider job-enumeration routine invoked by C2Server._jobs, with
the token value it was passed: _jobs_ibm, _jobs_qi or _jobs_ionq. -/
inductive JobCall where
  | ibm (token : Json)
  | qi (token : Json)
  | ionq (token : Json)

/-- The dictionary literal of C2Server._jobs, indexed by the provider
value: a lookup that succeeds exactly on the string keys "IBM", "QI" and
"IonQ" and otherwise raises KeyError (none). -/
def selectRoutine (p : Json) : Option (Json → JobCall) :=
  match p with
  | .str s =>
    if s = "IBM" then some JobCall.ibm
    else if s = "QI" then some JobCall.qi
    else if s = "IonQ" then some JobCall.ionq
    else none
  | _ => none

/-- C2Server._jobs (quantum_c2.py lines 117-135), in Python evaluation
order: data with the "provider" key (raises when absent), the dictionary
lookup on that value (raises on an unrecognized provider), data with the
"token" key (raises when absent), then the call.  none embeds an
uncaught exception inside the handler. -/
def c2_jobs (data : Json) : Option JobCall :=
  match data.getKey "provider" with
  | none => none
  | some p =>
    match selectRoutine p with
    | none => none
    | some routine =>
      match data.getKey "token" with
      | none => none
      | some t => some (routine t)

structure HttpResponse where
  status : Nat
  body : String
deriving DecidableEq

/-- What a do_POST call did after writing its response. -/
inductive PostEffect where
  | jobsRun (call : JobCall)
  | circuitLogged (content : Json)
  | unsupportedLogged (path : String)
  | raised

/-- HttpHandler.do_POST (quantum_c2.py lines 39-68).  The body argument
is the json.loads outcome of the raw POST body (none embeds malformed
JSON, whose parse raises).  The 200 "Ack!" response is written before
any parsing or dispatch, so it is the first component unconditionally;
the effect then depends on the path: /token parses and dispatches via
C2Server._jobs, /circuit parses and extracts the "circuit" key, any
other path logs and does nothing. -/
def do_POST (path : String) (body : Option Json) : HttpResponse × PostEffect :=
  ({ status := 200, body := "Ack!" },
    if path = "/token" then
      match body with
      | none => .raised
      | some data =>
        match c2_jobs data with
        | none => .raised
        | some call => .jobsRun call
    else if path = "/circuit" then
      match body with
      | none => .raised
      | some data =>
        match data.getKey "circuit" with
        | none => .raised
        | some c => .circuitLogged c
    else .unsupportedLogged path)

/-- HttpHandler.do_GET (quantum_c2.py lines 25-37): a fixed greeting. -/
def do_GET : HttpResponse := { status := 200, body := "Hello, world!" }

/-! ### Patched-roots record: _add_patch / _remove_patch on _m_data -/

/-- The effect of PythonPackagePatcher._add_patch (patcher.py lines
151-174) on the in-memory list _m_data: return unchanged when the root
is already recorded, else append it (and then patch its candidate
locations). -/
def add_patch (m_data : List String) (path : String) : List String :=
  if path ∈ m_data then m_data else m_data ++ [path]

/-- The effect of PythonPackagePatcher._remove_patch (patcher.py lines
176-198) on _m_data: return unchanged when the root is not recorded,
else list.remove it (the first occurrence). -/
def remove_patch (m_data : List String) (path : String) : List String :=
  if path ∈ m_data then m_data.erase path else m_data

/-- An event in the life of the in-memory patched record. -/
inductive PatchOp where
  | add (path : String)
  | remove (path : String)

def applyPatchOp (m_data : List String) : PatchOp → List String
  | .add p => add_patch m_data p
  | .remove p => remove_patch m_data p

/-! ### Daemon main: quantum_daemon.py lines 74-80

try: token_stealer.run(); patcher.run()
except KeyboardInterrupt: print; finally: patcher.restore_state().
Python runs the finally block on all three exit paths: normal
completion, KeyboardInterrupt (caught by the except clause), and any
other exception (which propagates after the finally block). -/

/-- The patcher state the daemon epilogue acts on: the in-memory list
_m_data, plus the trace of roots restore_state has passed to
_remove_patch. -/
structure DaemonState where
  m_data : List String
  restoreCalls : List String
deriving DecidableEq

/-- PythonPackagePatcher.restore_state (patcher.py lines 136-149):
iterate a deep copy of _m_data, calling _remove_patch on every entry.
The fold ranges over the frozen copy while _m_data itself shrinks. -/
def restore_state (s : DaemonState) : DaemonState :=
  s.m_data.foldl
    (fun st d =>
      { m_data := remove_patch st.m_data d, restoreCalls := st.restoreCalls ++ [d] })
    s

/-- How the try block of the daemon ended. -/
inductive LoopExit where
  | completed
  | interrupted
  | excepted
deriving DecidableEq

/-- One iteration of PythonPackagePatcher.run as it affects _m_data:
_processes_data calls _add_patch on each root discovered this second. -/
def loopIter (discovered : List String) (m_data : List String) : List String :=
  discovered.foldl add_patch m_data

/-- _m_data after the first n iterations of the patch loop, where
iteration i discovers the roots discovered i. -/
def patch_loop_state (discovered : Nat → List String) (n : Nat)
    (m_data : List String) : List String :=
  (List.range n).foldl (fun acc i => loopIter (discovered i) acc) m_data

/-- PythonPackagePatcher.run (patcher.py lines 245-261) under a fault
schedule: with no fault all 180 iterations run and the loop completes;
a fault (k, e) with k < 180 aborts at the start of iteration k with exit
kind e (a KeyboardInterrupt or another exception). -/
def patcher_run (discovered : Nat → List String) (fault : Option (Nat × LoopExit))
    (m_data : List String) : List String × LoopExit :=
  match fault with
  | none => (patch_loop_state discovered 180 m_data, .completed)
  | some (k, e) =>
    if k < 180 then (patch_loop_state discovered k m_data, e)
    else (patch_loop_state discovered 180 m_data, .completed)

/-- _m_data at the moment the daemon's try block is exited: empty when
token stealing raised before the patch loop started, else whatever the
(possibly aborted) patch loop left. -/
def daemon_loop_exit_m_data (stealerRaises : Bool) (discovered : Nat → List String)
    (fault : Option (Nat × LoopExit)) : List String :=
  if stealerRaises then [] else (patcher_run discovered fault []).1

/-- The daemon main block (quantum_daemon.py lines 74-80): run the try
block, then — on every exit path, per Python try/finally semantics —
run restore_state on the resulting patcher state.  Returns the final
state and how the try block ended. -/
def daemon_main (stealerRaises : Bool) (discovered : Nat → List String)
    (fault : Option (Nat × LoopExit)) : DaemonState × LoopExit :=
  let ex : LoopExit :=
    if stealerRaises then .excepted else (patcher_run discovered fault []).2
  let s1 : DaemonState :=
    { m_data := daemon_loop_exit_m_data stealerRaises discovered fault,
      restoreCalls := [] }
  (restore_state s1, ex)

/-! ### Candidate qiskit locations: PythonPackagePatcher._site_package

Paths are component lists relative to the file-system root: dirname
drops the last component, and dirname of the root is the root itself.
The file system is a pair of functions: ex p decides os.path.exists and
listdir p gives os.listdir. -/

/-- The while loop of _site_package (patcher.py line 100-101): climb
dirname until a "lib" entry exists next to the current path.  At the
root, dirname is a fixed point, so when even the root has no "lib" entry
the Python loop never terminates; none embeds that divergence. -/
def find_lib_root (ex : List String → Bool) : List String → Option (List String)
  | [] => if ex ["lib"] then some [] else none
  | p@(_ :: _) => if ex (p ++ ["lib"]) then some p else find_lib_root ex p.dropLast
termination_by p => p.length
decreasing_by subst p; simp [List.length_dropLast]

/-- PythonPackagePatcher._site_package (patcher.py lines 83-108): after
the climb finds the ancestor a, the returned candidates are
a/lib/site-packages/qiskit followed by a/lib/d/site-packages/qiskit for
every entry d of a/lib; none embeds the non-terminating climb. -/
def site_package (ex : List String → Bool) (listdir : List String → List String)
    (path : List String) : Option (List (List String)) :=
  (find_lib_root ex path).map (fun a =>
    (a ++ ["lib", "site-packages", "qiskit"]) ::
      (listdir (a ++ ["lib"])).map (fun d => a ++ ["lib", d, "site-packages", "qiskit"]))

/-- Modelled from the spec: the chain of ancestors of a path, nearest
first — the path itself, each successive parent, then the file-system
root.  Used to state what "the nearest ancestor containing an entry
named lib" means independently of the climbing loop. -/
def ancestor_chain : List String → List (List String)
  | [] => [[]]
  | p@(_ :: _) => p :: ancestor_chain p.dropLast
termination_by p => p.length
decreasing_by subst p; simp [List.length_dropLast]

/-! ### Theorems -/

/-- Claim C1, evaluated on the code: starting from an original file with
no backup, patching twice equals patching once (one backup, one attacker
file) — but restore is NOT idempotent.  After one restore the location
holds the original file and no backup, and a second _patch_qiskit call
with the restore flag set falls through to the patch branch: it renames
the original to the backup name and installs the payload again, so the
second restore call re-patches instead of changing nothing. -/
theorem patch_idempotent_but_second_restore_repatches :
    patch_qiskit "evil"
        (patch_qiskit "evil" { original := some "orig", backup := none } false) false
      = patch_qiskit "evil" { original := some "orig", backup := none } false
    ∧ patch_qiskit "evil" { original := some "orig", backup := none } false
      = { original := some "evil", backup := some "orig" }
    ∧ patch_qiskit "evil" { original := some "evil", backup := some "orig" } true
      = { original := some "orig", backup := none }
    ∧ patch_qiskit "evil" { original := some "orig", backup := none } true
      = { original := some "evil", backup := some "orig" }
    ∧ ({ original := some "evil", backup := some "orig" } : QiskitLoc)
      ≠ { original := some "orig", backup := none } :=
  ⟨rfl, rfl, rfl, rfl, by decide⟩

/-- Claim C2: for a location whose target file exists with content
original and with no pre-existing backup, patch followed by restore
reproduces the original byte content at the original path and leaves no
backup file behind. -/
theorem patch_then_restore_round_trip (original payload : String) :
    patch_qiskit payload
        (patch_qiskit payload { original := some original, backup := none } false) true
      = { original := some original, backup := none } := rfl

/-- Claim C4: with one user directory holding the IBM config file whose
parsed JSON binds default-ibm-quantum.token to "abc123", run() sends
exactly send("/token", provider IBM, token "abc123"); with the same file
lacking the "token" key on that path, extraction raises and no /token
message is sent for that file. -/
theorem ibm_token_extracted_and_missing_key_raises :
    token_stealer_run ["alice"]
        (fun u p => if u = "alice" ∧ p = ".qiskit/qiskit-ibm.json"
          then some (.obj [("default-ibm-quantum", .obj [("token", .str "abc123")])])
          else none)
        (fun _ => none)
      = ([tokenMsg "IBM" (.str "abc123")], none)
    ∧ token_stealer_run ["alice"]
        (fun u p => if u = "alice" ∧ p = ".qiskit/qiskit-ibm.json"
          then some (.obj [("default-ibm-quantum", .obj [("t", .str "x")])])
          else none)
        (fun _ => none)
      = ([], some "KeyError") :=
  ⟨rfl, rfl⟩

/-- Claim C6: a /token POST whose body names provider "IBM" with token
"t" dispatches to exactly the IBM job-enumeration routine (the effect is
a single JobCall, so neither of the other two runs); and for every
provider string matching none of the three dictionary keys "IBM", "QI",
"IonQ", a /token POST raises an uncaught lookup error inside the handler
instead of silently succeeding or invoking any routine. -/
theorem token_dispatch_ibm_exactly_and_unknown_raises :
    do_POST "/token" (some (.obj [("provider", .str "IBM"), ("token", .str "t")]))
      = ({ status := 200, body := "Ack!" }, .jobsRun (.ibm (.str "t")))
    ∧ (∀ s : String, s ≠ "IBM" → s ≠ "QI" → s ≠ "IonQ" →
        do_POST "/token" (some (.obj [("provider", .str s), ("token", .str "t")]))
          = ({ status := 200, body := "Ack!" }, .raised)) := by
  refine ⟨rfl, ?_⟩
  intro s h1 h2 h3
  simp [do_POST, c2_jobs, Json.getKey, selectRoutine, List.find?, h1, h2, h3]

/-- A concrete unrecognized provider exercising the universal raise case
of the dispatch theorem. -/
theorem token_dispatch_unknown_raises_witness :
    do_POST "/token" (some (.obj [("provider", .str "EvilCorp"), ("token", .str "t")]))
      = ({ status := 200, body := "Ack!" }, .raised) :=
  token_dispatch_ibm_exactly_and_unknown_raises.2 "EvilCorp"
    (by decide) (by decide) (by decide)

/-- Claim C9: the response written by do_POST is the fixed 200 "Ack!"
for every path and every body — including unknown paths, malformed JSON
(body none) and bodies missing expected keys — because it is written
before any parsing or dispatch; and do_GET returns the fixed greeting
with status 200. -/
theorem c2_response_independent_of_payload (path : String) (body : Option Json) :
    (do_POST path body).1 = { status := 200, body := "Ack!" }
    ∧ do_GET = { status := 200, body := "Hello, world!" } :=
  ⟨rfl, rfl⟩

/-- An environment with IONQ_API_KEY unset, IONQ_API_TOKEN set to "xyz"
and the later variable QISKIT_IONQ_API_TOKEN set to "abc". -/
def envTwoSet : String → Option String := fun v =>
  if v = "IONQ_API_TOKEN" then some "xyz"
  else if v = "QISKIT_IONQ_API_TOKEN" then some "abc" else none

/-- Claim C3 refuted: it is not true that with IONQ_API_KEY unset and
IONQ_API_TOKEN = "xyz" exactly one /token message is sent for IonQ
regardless of later variables in the list.  The loop has no early exit:
with QISKIT_IONQ_API_TOKEN also non-empty, two messages are sent. -/
theorem env_first_hit_only_refuted :
    ¬ (∀ env : String → Option String,
        env "IONQ_API_KEY" = none → env "IONQ_API_TOKEN" = some "xyz" →
        runEnvPhase env = [tokenMsg "IonQ" (.str "xyz")]) := by
  intro h
  have h2 := h envTwoSet rfl rfl
  have h3 : runEnvPhase envTwoSet
      = [tokenMsg "IonQ" (.str "xyz"), tokenMsg "IonQ" (.str "abc")] := rfl
  rw [h3] at h2
  exact List.cons_ne_nil _ _ (List.cons.inj h2).2

/-- Claim C3 as amended: the scanner sends one /token message per
non-empty variable in the declared order; in particular, with
IONQ_API_KEY unset or empty, IONQ_API_TOKEN = "xyz", and the later
QISKIT_IONQ_API_TOKEN unset or empty, exactly one /token message is sent
for IonQ, carrying token "xyz". -/
theorem env_lookup_sends_each_nonempty_var (env : String → Option String)
    (h1 : env "IONQ_API_KEY" = none ∨ env "IONQ_API_KEY" = some "")
    (h2 : env "IONQ_API_TOKEN" = some "xyz")
    (h3 : env "QISKIT_IONQ_API_TOKEN" = none ∨ env "QISKIT_IONQ_API_TOKEN" = some "") :
    runEnvPhase env = [tokenMsg "IonQ" (.str "xyz")] := by
  rcases h1 with h1 | h1 <;> rcases h3 with h3 | h3 <;>
    simp [runEnvPhase, envData, h1, h2, h3]

/-- A concrete instance of the amended environment-variable lookup. -/
theorem env_lookup_sends_each_nonempty_var_witness :
    runEnvPhase (fun v => if v = "IONQ_API_TOKEN" then some "xyz" else none)
      = [tokenMsg "IonQ" (.str "xyz")] :=
  env_lookup_sends_each_nonempty_var _ (Or.inl rfl) rfl (Or.inl rfl)

/-- Lifts a (name, content) listing into an all-readable directory. -/
def okFiles (files : List (String × String)) : List (String × FileRead) :=
  files.map (fun f => (f.1, FileRead.ok f.2))

lemma readPhase_okFiles (files : List (String × String)) :
    readPhase (okFiles files)
      = (files.map (fun f => circuitMsg f.2), files.map (fun f => f.1), false) := by
  induction files with
  | nil => rfl
  | cons f rest ih =>
    show readPhase ((f.1, FileRead.ok f.2) :: okFiles rest) = _
    simp only [readPhase]
    rw [ih]
    rfl

lemma readPhase_fail_midway (good : List (String × String)) (bad : String)
    (rest : List (String × FileRead)) :
    readPhase (okFiles good ++ (bad, FileRead.fail) :: rest)
      = (good.map (fun f => circuitMsg f.2), good.map (fun f => f.1), true) := by
  induction good with
  | nil => rfl
  | cons f g ih =>
    show readPhase ((f.1, FileRead.ok f.2) :: (okFiles g ++ (bad, FileRead.fail) :: rest)) = _
    simp only [readPhase]
    rw [ih]
    rfl

/-- Claim C5: the circuit-watcher pass on an absent directory performs
no action and raises nothing; on a directory of readable files it sends
each file's content as a /circuit message in listing order and then
removes every file; and when a read fails midway, the files before the
failure were sent but every file of the pass — sent or not — is left on
disk and the exception propagates (deletions happen only after the whole
pass has been read). -/
theorem circuit_watcher_contract :
    report_circuits none = ([], none, false)
    ∧ (∀ files : List (String × String),
        report_circuits (some (okFiles files))
          = (files.map (fun f => circuitMsg f.2), some [], false))
    ∧ (∀ (good : List (String × String)) (bad : String) (rest : List (String × FileRead)),
        report_circuits (some (okFiles good ++ (bad, FileRead.fail) :: rest))
          = (good.map (fun f => circuitMsg f.2),
             some (okFiles good ++ (bad, FileRead.fail) :: rest), true)) := by
  refine ⟨rfl, ?_, ?_⟩
  · intro files
    simp [report_circuits, readPhase_okFiles]
    intro a b hab
    obtain ⟨f, hf, heq⟩ := List.mem_map.mp hab
    injection heq with h1 h2
    subst h1
    exact ⟨f.2, by simpa using hf⟩
  · intro good bad rest
    simp [report_circuits, readPhase_fail_midway]

lemma applyPatchOp_nodup (m_data : List String) (op : PatchOp) (h : m_data.Nodup) :
    (applyPatchOp m_data op).Nodup := by
  cases op with
  | add p =>
    by_cases hp : p ∈ m_data
    · simpa [applyPatchOp, add_patch, hp] using h
    · simp only [applyPatchOp, add_patch, hp, if_false]
      exact List.Nodup.append h (List.nodup_singleton p) (by simpa using hp)
  | remove p =>
    by_cases hp : p ∈ m_data
    · simpa [applyPatchOp, remove_patch, hp] using h.erase p
    · simpa [applyPatchOp, remove_patch, hp] using h

/-- Claim C8: starting from the empty in-memory record, after any
sequence of _add_patch and _remove_patch calls every root occurs at most
once in _m_data. -/
theorem patched_root_recorded_at_most_once (ops : List PatchOp) (R : String) :
    ((ops.foldl applyPatchOp []).count R) ≤ 1 := by
  have h : ∀ (l : List PatchOp) (m : List String), m.Nodup →
      (l.foldl applyPatchOp m).Nodup := by
    intro l
    induction l with
    | nil => intro m hm; simpa using hm
    | cons op rest ih => intro m hm; exact ih _ (applyPatchOp_nodup m op hm)
  exact List.nodup_iff_count_le_one.mp (h ops [] List.nodup_nil) R

lemma restore_state_calls (l : List String) (s : DaemonState) :
    (l.foldl
        (fun st d =>
          { m_data := remove_patch st.m_data d, restoreCalls := st.restoreCalls ++ [d] })
        s).restoreCalls
      = s.restoreCalls ++ l := by
  induction l generalizing s with
  | nil => simp
  | cons d rest ih => simp [ih]

/-- Claim C7: however the daemon's try block terminates — the stealer
raising, the patch loop completing its 180 iterations, a keyboard
interrupt, or an exception at any iteration — restore_state runs and
passes to _remove_patch exactly the roots recorded in _m_data at loop
exit, in order. -/
theorem restore_runs_on_every_exit_path (stealerRaises : Bool)
    (discovered : Nat → List String) (fault : Option (Nat × LoopExit)) :
    (daemon_main stealerRaises discovered fault).1.restoreCalls
      = daemon_loop_exit_m_data stealerRaises discovered fault := by
  simp [daemon_main, restore_state, restore_state_calls]

/-- Claim C10 refuted: _site_package does not terminate for every root.
On a file system where no ancestor of the root — the file-system root
included — has a "lib" entry, dirname reaches its fixed point and the
while loop spins forever; the embedding returns none for exactly that
divergence, so the result is not some list for this input. -/
theorem site_package_terminates_everywhere_refuted :
    ¬ (∀ (ex : List String → Bool) (listdir : List String → List String)
        (path : List String), (site_package ex listdir path).isSome = true) := by
  intro h
  have h2 := h (fun _ => false) (fun _ => []) ["home", "user"]
  simp [site_package, find_lib_root] at h2

/-- Claim C10 as amended: _site_package terminates exactly when some
ancestor of the root has a "lib" entry; in that case it returns
a/lib/site-packages/qiskit followed by a/lib/d/site-packages/qiskit for
every entry d of a/lib, where a is the nearest such ancestor (the first
hit along the ancestor chain); when no ancestor qualifies, the climbing
loop diverges (embedded as none). -/
theorem site_package_nearest_lib_ancestor (ex : List String → Bool)
    (listdir : List String → List String) (path : List String) :
    site_package ex listdir path
      = ((ancestor_chain path).find? (fun a => ex (a ++ ["lib"]))).map
          (fun a => (a ++ ["lib", "site-packages", "qiskit"]) ::
            (listdir (a ++ ["lib"])).map (fun d => a ++ ["lib", d, "site-packages", "qiskit"])) := by
  have key : ∀ (n : Nat) (p : List String), p.length ≤ n →
      find_lib_root ex p = (ancestor_chain p).find? (fun a => ex (a ++ ["lib"])) := by
    intro n
    induction n with
    | zero =>
      intro p hp
      have hnil : p = [] := List.eq_nil_of_length_eq_zero (Nat.le_zero.mp hp)
      subst hnil
      by_cases hex : ex ["lib"] = true <;>
        simp [find_lib_root, ancestor_chain, List.find?, hex]
    | succ n ih =>
      intro p hp
      match p with
      | [] =>
        by_cases hex : ex ["lib"] = true <;>
          simp [find_lib_root, ancestor_chain, List.find?, hex]
      | d :: rest =>
        by_cases hex : ex (d :: (rest ++ ["lib"])) = true
        · simp [find_lib_root, ancestor_chain, hex]
        · have hlen : (d :: rest).dropLast.length ≤ n := by
            simp only [List.length_dropLast, List.length_cons] at *
            omega
          simp [find_lib_root, ancestor_chain, hex, ih _ hlen]
  simp only [site_package, key path.length path (Nat.le_refl _)]

end PoC
